import Mathlib

/-!
Shallow embedding of the ledger / loan accounting core of `src/bot.js`
(a Discord banking bot).

Modelling conventions:
* JavaScript objects used as string-keyed dictionaries (`bankData.balances`,
  `bankData.loans`, ...) are modelled as insertion-ordered association
  lists, matching the insertion-order iteration of `Object.entries` /
  `Object.values` for the non-numeric keys used here.
* A JS number appearing as an amount argument is modelled as a rational
  (every finite JS float is a rational); `none` models an argument whose
  `Number(...)` conversion is `NaN` / `Infinity` / absent.
* Wall-clock timestamps (`new Date().toISOString()`) and the random
  loan-id generator (`generateLoanId`, time + random suffix) are threaded
  in as explicit parameters.
* Each chat command is embedded from the point where the surrounding
  Discord argument marshalling has produced the resolved account /
  borrower name, the amount argument and the note - exactly the data the
  spec says the core consumes.  The reply text sent over
  `message.channel.send` is kept as the `Outcome` payload.
-/

namespace GolpyreBank

/-- A transaction record, as pushed by `recordTransaction` and
`recordLoanTransaction` in `bot.js` (both logs use the same field shape). -/
structure TxRecord where
  timestamp : String
  type : String
  amount : Int
  actorId : String
  note : String
deriving DecidableEq

/-- A loan record, as stored in `bankData.loans[loanId]` by `loanCommand`. -/
structure Loan where
  borrowerName : String
  lenderName : String
  balance : Int
  status : String
  timestamp : String
  note : String
deriving DecidableEq

/-- A name profile, `bankData.profiles[userId]`. -/
structure Profile where
  name : String
deriving DecidableEq

/-- Lookup in a JS object modelled as an association list. -/
def alGet (l : List (String × α)) (key : String) : Option α :=
  match l with
  | [] => none
  | (k, v) :: rest => if k = key then some v else alGet rest key

/-- Assignment `obj[key] = v` on a JS object: replaces the value at an
existing key in place, otherwise appends the new key (JS insertion order). -/
def alSet (l : List (String × α)) (key : String) (v : α) : List (String × α) :=
  match l with
  | [] => [(key, v)]
  | (k, w) :: rest => if k = key then (key, v) :: rest else (k, w) :: alSet rest key v

/-- In-place accumulation `obj[key].debt += v`, creating the key at the end
if absent (used by `getTopDebtEntries`). -/
def alAdd (l : List (String × Int)) (key : String) (v : Int) : List (String × Int) :=
  match l with
  | [] => [(key, v)]
  | (k, w) :: rest => if k = key then (k, w + v) :: rest else (k, w) :: alAdd rest key v

/-- The full in-memory state `bankData` of `bot.js`. -/
structure BankData where
  balances : List (String × Int)
  transactions : List (String × List TxRecord)
  profiles : List (String × Profile)
  loans : List (String × Loan)
  loanTransactions : List (String × List TxRecord)
deriving DecidableEq

/-- The initial (empty) `bankData` object. -/
def emptyBank : BankData :=
  { balances := [], transactions := [], profiles := [], loans := [], loanTransactions := [] }

/-- What a command invocation sends back over the channel: a structured
rejection or a success message.  All command paths in `bot.js` end in a
`message.channel.send(...)`. -/
inductive Outcome where
  | success (msg : String)
  | rejection (msg : String)
deriving DecidableEq

/-- Embedding of `getBalance` in `bot.js`: `bankData.balances[accountName] || 0`. -/
def getBalance (st : BankData) (accountName : String) : Int :=
  (alGet st.balances accountName).getD 0

/-- Embedding of `setBalance` in `bot.js`. -/
def setBalance (st : BankData) (accountName : String) (amount : Int) : BankData :=
  { st with balances := alSet st.balances accountName amount }

/-- Embedding of `recordTransaction` in `bot.js`: ensures the per-account list exists and
pushes a record with the current wall-clock timestamp (threaded as `now`). -/
def recordTransaction (st : BankData) (accountName type : String) (amount : Int)
    (actorId note now : String) : BankData :=
  let txs := ((alGet st.transactions accountName).getD []) ++ [⟨now, type, amount, actorId, note⟩]
  { st with transactions := alSet st.transactions accountName txs }

/-- Embedding of `parseAmount` in `bot.js`: `Number(str)` must be finite and strictly
positive, then `Math.floor` is applied.  `none` models a missing argument or
a `NaN` / `Infinity` conversion result. -/
def parseAmount (x : Option Rat) : Option Int :=
  match x with
  | none => none
  | some n => if n ≤ 0 then none else some ⌊n⌋

/-- Embedding of `depositCommand` in `bot.js`, from the point where the account name,
amount argument and note have been marshalled. -/
def depositCommand (st : BankData) (accountName : String) (amountArg : Option Rat)
    (actorId note now : String) : BankData × Outcome :=
  match parseAmount amountArg with
  | none => (st, Outcome.rejection "Amount must be a positive number.")
  | some amount =>
    let oldBalance := getBalance st accountName
    let newBalance := oldBalance + amount
    let st1 := setBalance st accountName newBalance
    let st2 := recordTransaction st1 accountName "deposit" amount actorId note now
    (st2, Outcome.success ("Deposited **" ++ toString amount ++ " GP** to **" ++ accountName
      ++ "**.\nNew balance: **" ++ toString newBalance ++ " GP** (was "
      ++ toString oldBalance ++ " GP)."))

/-- Embedding of `withdrawCommand` in `bot.js`, from the point where the account name,
amount argument and note have been marshalled. -/
def withdrawCommand (st : BankData) (accountName : String) (amountArg : Option Rat)
    (actorId note now : String) : BankData × Outcome :=
  match parseAmount amountArg with
  | none => (st, Outcome.rejection "Amount must be a positive number.")
  | some amount =>
    let oldBalance := getBalance st accountName
    if oldBalance < amount then
      (st, Outcome.rejection ("Cannot withdraw **" ++ toString amount ++ " GP** from **"
        ++ accountName ++ "**; it only has **" ++ toString oldBalance ++ " GP**."))
    else
      let newBalance := oldBalance - amount
      let st1 := setBalance st accountName newBalance
      let st2 := recordTransaction st1 accountName "withdraw" amount actorId note now
      (st2, Outcome.success ("Withdrew **" ++ toString amount ++ " GP** from **" ++ accountName
        ++ "**.\nNew balance: **" ++ toString newBalance ++ " GP** (was "
        ++ toString oldBalance ++ " GP)."))

/-- A JavaScript value occurring in a string position of the loan-matching
code.  `repayCommand` and `accrueCommand` call
`findOpenLoans({borrowerName: ..., lenderName: ...})`, passing a single
object literal where `findOpenLoans(borrowerName, lenderName)` declares two
string parameters, so the second parameter is `undefined`. -/
inductive JArg where
  | str (s : String)
  | undef
  | pairObj (borrowerName lenderName : String)
deriving DecidableEq

/-- The JS coercion `String(x || "")` performed inside `eqName`: a falsy
value (here `undefined` or the empty string) becomes `""`; an object literal
stringifies to `"[object Object]"`. -/
def jsToString : JArg → String
  | JArg.str s => s
  | JArg.undef => ""
  | JArg.pairObj _ _ => "[object Object]"

/-- JS whitespace test for `trim` (the ASCII whitespace occurring in the
names handled here). -/
def isJsSpace (c : Char) : Bool :=
  c = ' ' || c = '\t' || c = '\n' || c = '\r'

/-- JS `String.prototype.trim`, computed structurally on the character
list: strip leading and trailing whitespace. -/
def jsTrim (s : String) : String :=
  String.mk (((s.data.dropWhile isJsSpace).reverse.dropWhile isJsSpace).reverse)

/-- ASCII lowering of one character, as `toLowerCase` acts on the names
handled here. -/
def lowerChar (c : Char) : Char :=
  if 'A' ≤ c ∧ c ≤ 'Z' then Char.ofNat (c.toNat + 32) else c

/-- JS `String.prototype.toLowerCase`, computed structurally on the
character list. -/
def jsToLower (s : String) : String :=
  String.mk (s.data.map lowerChar)

/-- Trim-and-case-fold normalization used by `eqName`. -/
def normName (s : String) : String :=
  jsToLower (jsTrim s)

/-- Embedding of `eqName` in `bot.js`:
`String(a || "").trim().toLowerCase() === String(b || "").trim().toLowerCase()`. -/
def eqName (a b : JArg) : Bool :=
  normName (jsToString a) == normName (jsToString b)

/-- Embedding of `findOpenLoans` in `bot.js`: all non-resolved loans whose borrower and
lender names `eqName`-match the two parameters; note that the result keeps
only the loan records (`.map(([, loan]) => loan)`), dropping the loan ids. -/
def findOpenLoans (loans : List (String × Loan)) (borrowerName lenderName : JArg) : List Loan :=
  (((loans.filter (fun p => p.2.status != "resolved")).filter
      (fun p => eqName (JArg.str p.2.borrowerName) borrowerName
        && eqName (JArg.str p.2.lenderName) lenderName))).map (fun p => p.2)

/-- Embedding of `normalizeLoanId` in `bot.js`: trim, reject empty, truncate to 64. -/
def normalizeLoanId (s : String) : Option String :=
  let t := jsTrim s
  if t.data.isEmpty then none else some (String.mk (t.data.take 64))

/-- The JS coercion of a possibly-`undefined` loan id to a string, as it
happens in template literals and property-key positions (`undefined`
becomes the string `"undefined"`). -/
def jsShow : Option String → String
  | some s => s
  | none => "undefined"

/-- Embedding of `isLoanId` in `bot.js`: the normalized string is a known key of
`bankData.loans` or `bankData.loanTransactions`. -/
def isLoanId (st : BankData) (s : String) : Bool :=
  match normalizeLoanId s with
  | none => false
  | some id => (alGet st.loans id).isSome || (alGet st.loanTransactions id).isSome

/-- Embedding of `getLoan` in `bot.js`; the argument may be the `undefined` produced by
`matches[0].loanId`, which JS coerces to the property key `"undefined"`. -/
def getLoan (st : BankData) (loanId : Option String) : Option Loan :=
  alGet st.loans (jsShow loanId)

/-- Embedding of `recordLoanTransaction` in `bot.js` (via `ensureLoanTxList`). -/
def recordLoanTransaction (st : BankData) (loanId type : String) (amount : Int)
    (actorId note now : String) : BankData :=
  let txs := ((alGet st.loanTransactions loanId).getD []) ++ [⟨now, type, amount, actorId, note⟩]
  { st with loanTransactions := alSet st.loanTransactions loanId txs }

/-- The `// Get loan ID` block shared verbatim by `repayCommand` and
`accrueCommand` (only the `!repay` / `!accrue` word of the ambiguity message
differs, passed as `cmdName`).  The call site passes a single object to
`findOpenLoans`, so its `lenderName` parameter is `undefined`; and since
`findOpenLoans` drops the ids, `matches[0].loanId` and each `m.loanId` in
the ambiguity listing are `undefined`. -/
def resolveLoanTarget (st : BankData) (borrowerName targetArg cmdName : String) :
    Except Outcome (Option String) :=
  if isLoanId st targetArg then Except.ok (normalizeLoanId targetArg)
  else
    let lenderName := jsTrim targetArg
    if lenderName.data.isEmpty then Except.error (Outcome.rejection "Lender cannot be empty.")
    else
      match findOpenLoans st.loans (JArg.pairObj borrowerName lenderName) JArg.undef with
      | [] => Except.error (Outcome.rejection ("No unresolved loan found for borrower **"
          ++ borrowerName ++ "** with lender **" ++ lenderName ++ "**."))
      | [_] => Except.ok none
      | ms => Except.error (Outcome.rejection ("Borrower **" ++ borrowerName
          ++ "** has **multiple unresolved loans** with lender **" ++ lenderName ++ "**.\n"
          ++ "Use `!" ++ cmdName ++ " <amount> <loan_id>` instead.\nLoan IDs:\n"
          ++ String.intercalate "\n" (ms.map (fun m => "• **undefined** - " ++ m.note))))

/-- The `// Repay` effect block of `repayCommand`: clamp the balance at 0,
log the requested amount, and on reaching 0 mark the loan resolved and log
a `resolve` transaction (the note extra recomputes `isLoanId(targetArg)` on
the mutated state, as the source does). -/
def applyRepay (st : BankData) (key : String) (loan : Loan) (amount : Int)
    (actorId now targetArg : String) : BankData × Outcome :=
  let oldBal := loan.balance
  let newBal := max 0 (oldBal - amount)
  let st1 := { st with loans := alSet st.loans key { loan with balance := newBal } }
  let st2 := recordLoanTransaction st1 key "repay" amount actorId "" now
  let base := "Repaid **" ++ toString amount ++ " GP** to **" ++ loan.lenderName
    ++ "**.\nLoan balance: **" ++ toString newBal ++ " GP** (was " ++ toString oldBal ++ " GP)."
  if newBal = 0 then
    let resolvedLoans := alSet st2.loans key { loan with balance := newBal, status := "resolved" }
    let st3 := { st2 with loans := resolvedLoans }
    let st4 := recordLoanTransaction st3 key "resolve" 0 actorId "Loan resolved" now
    (st4, Outcome.success (base
      ++ (if isLoanId st4 targetArg then "\nNote: **" ++ loan.note ++ "**" else "")
      ++ "\nLoan is now **resolved**."))
  else
    (st2, Outcome.success (base
      ++ (if isLoanId st2 targetArg then "\nNote: **" ++ loan.note ++ "**" else "")))

/-- Embedding of `repayCommand` in `bot.js`, from the point where the borrower, amount
argument and target string have been marshalled. -/
def repayCommand (st : BankData) (borrowerName : String) (amountArg : Option Rat)
    (targetArg actorId now : String) : BankData × Outcome :=
  match parseAmount amountArg with
  | none => (st, Outcome.rejection "Amount must be a positive number.")
  | some amount =>
    match resolveLoanTarget st borrowerName targetArg "repay" with
    | Except.error out => (st, out)
    | Except.ok loanId =>
      match getLoan st loanId with
      | none => (st, Outcome.rejection ("Loan **" ++ jsShow loanId ++ "** not found."))
      | some loan =>
        if loan.status = "resolved" then
          (st, Outcome.rejection ("Loan **" ++ jsShow loanId ++ "** is already resolved."))
        else if eqName (JArg.str loan.borrowerName) (JArg.str borrowerName) then
          applyRepay st (jsShow loanId) loan amount actorId now targetArg
        else
          (st, Outcome.rejection ("Loan **" ++ jsShow loanId ++ "** does not belong to borrower **"
            ++ borrowerName ++ "**."))

/-- The `// Accrue` effect block of `accrueCommand`: add the amount and log
an `accrue` transaction; the status is never touched. -/
def applyAccrue (st : BankData) (key : String) (loan : Loan) (amount : Int)
    (actorId now targetArg : String) : BankData × Outcome :=
  let oldBal := loan.balance
  let newBal := oldBal + amount
  let st1 := { st with loans := alSet st.loans key { loan with balance := newBal } }
  let st2 := recordLoanTransaction st1 key "accrue" amount actorId "" now
  (st2, Outcome.success ("Accrued **" ++ toString amount ++ " GP** on loan with lender **"
    ++ loan.lenderName ++ "**.\nLoan balance: **" ++ toString newBal ++ " GP** (was "
    ++ toString oldBal ++ " GP)."
    ++ (if isLoanId st2 targetArg then "\nNote: **" ++ loan.note ++ "**" else "")))

/-- Embedding of `accrueCommand` in `bot.js`, from the point where the borrower, amount
argument and target string have been marshalled. -/
def accrueCommand (st : BankData) (borrowerName : String) (amountArg : Option Rat)
    (targetArg actorId now : String) : BankData × Outcome :=
  match parseAmount amountArg with
  | none => (st, Outcome.rejection "Amount must be a positive number.")
  | some amount =>
    match resolveLoanTarget st borrowerName targetArg "accrue" with
    | Except.error out => (st, out)
    | Except.ok loanId =>
      match getLoan st loanId with
      | none => (st, Outcome.rejection ("Loan **" ++ jsShow loanId ++ "** not found."))
      | some loan =>
        if loan.status = "resolved" then
          (st, Outcome.rejection ("Loan **" ++ jsShow loanId ++ "** is resolved; cannot accrue more."))
        else if eqName (JArg.str loan.borrowerName) (JArg.str borrowerName) then
          applyAccrue st (jsShow loanId) loan amount actorId now targetArg
        else
          (st, Outcome.rejection ("Loan **" ++ jsShow loanId ++ "** does not belong to borrower **"
            ++ borrowerName ++ "**."))

/-- Embedding of `loanCommand` in `bot.js`, from the point where the borrower name,
amount argument, lender argument and note have been marshalled.  The
time-and-random output of `generateLoanId` is threaded in as `genId`; the
source performs no check that `genId` is not already a key of
`bankData.loans`. -/
def loanCommand (st : BankData) (borrowerName lenderArg : String) (amountArg : Option Rat)
    (note actorId now genId : String) : BankData × Outcome :=
  match parseAmount amountArg with
  | none => (st, Outcome.rejection "Amount must be a positive number.")
  | some amount =>
    let lenderName := jsTrim lenderArg
    if lenderName.data.isEmpty then (st, Outcome.rejection "Lender cannot be empty.")
    else
      let loan : Loan :=
        { borrowerName := if borrowerName.data.isEmpty then "Unknown" else borrowerName
          lenderName := if lenderName.data.isEmpty then "Unknown" else lenderName
          balance := amount
          status := "open"
          timestamp := now
          note := note }
      let st1 := { st with loans := alSet st.loans genId loan }
      let st2 := recordLoanTransaction st1 genId "loan" amount actorId
        (if note.data.isEmpty then "Loan created" else note) now
      (st2, Outcome.success ("**__Loan created.__**\n• Borrower: **" ++ loan.borrowerName
        ++ "**\n• Lender: **" ++ loan.lenderName ++ "**\n• Initial debt: **" ++ toString amount
        ++ " GP**\n• Note: **" ++ note ++ "**"))

/-- The count validation of `historyCommand`: a finite number that is
strictly positive and at most 20 is floored (`Math.floor`), anything else
leaves the default `count = 5`. -/
def historyCount (arg : Option Rat) : Nat :=
  match arg with
  | none => 5
  | some n => if 0 < n ∧ n ≤ 20 then (⌊n⌋).toNat else 5

/-- JS `list.slice(-count)` for a non-negative `count`: the last `count`
elements, except that `count = 0` gives `slice(-0) = slice(0)`, the whole
list. -/
def jsSliceLast (l : List α) (count : Nat) : List α :=
  if count = 0 then l else l.drop (l.length - count)

/-- Embedding of `historyCommand` in `bot.js`, from the point where the account name and
the count argument have been marshalled: `none` is the explicit
"no transactions yet" reply, `some recent` the listed window. -/
def historyCommand (st : BankData) (accountName : String) (countArg : Option Rat) :
    Option (List TxRecord) :=
  let list := (alGet st.transactions accountName).getD []
  if list.isEmpty then none
  else some (jsSliceLast list (historyCount countArg))

/-- An entry of the debt leaderboard.  The source builds the object literal
`{ debt: ... }` with no `name` property, so reading `row.name` in
`leaderboardCommand` yields `undefined`; the absent property is modelled as
`name = none`. -/
structure DebtEntry where
  name : Option String
  debt : Int
deriving DecidableEq

/-- The grouping loop of `getTopDebtEntries`: per borrower name (exact
string key after the `|| "Unknown"` default), total balance of non-resolved
loans with positive balance, in first-appearance order. -/
def debtFold (loans : List (String × Loan)) : List (String × Int) :=
  loans.foldl
    (fun acc p =>
      if p.2.status = "resolved" then acc
      else if p.2.balance ≤ 0 then acc
      else alAdd acc (if p.2.borrowerName.data.isEmpty then "Unknown" else p.2.borrowerName) p.2.balance)
    []

/-- Stable insertion into a list sorted by strictly descending debt, as the
stable JS `sort((a, b) => b.debt - a.debt)` produces. -/
def insertDebtDesc (e : DebtEntry) : List DebtEntry → List DebtEntry
  | [] => [e]
  | x :: xs => if e.debt < x.debt then x :: insertDebtDesc e xs else e :: x :: xs

/-- Stable descending sort by debt. -/
def sortDebtDesc : List DebtEntry → List DebtEntry
  | [] => []
  | x :: xs => insertDebtDesc x (sortDebtDesc xs)

/-- Embedding of `getTopDebtEntries` in `bot.js`: group debt by borrower, take
`Object.values` (dropping the borrower-name keys), filter positive totals,
sort descending, truncate to `limit`. -/
def getTopDebtEntries (st : BankData) (limit : Nat) : List DebtEntry :=
  (sortDebtDesc
    (((debtFold st.loans).map (fun p => DebtEntry.mk none p.2)).filter
      (fun e => decide (0 < e.debt)))).take limit

/-- The debt-leaderboard row template of `leaderboardCommand`:
`` `**${idx + 1}.** ${row.name} - **${row.debt} GP**` ``. -/
def formatDebtRow (idx : Nat) (row : DebtEntry) : String :=
  "**" ++ toString (idx + 1) ++ ".** " ++ jsShow row.name ++ " - **" ++ toString row.debt ++ " GP**"

/-- The persisted snapshot document: a parsed JSON object in which any of
the five top-level keys may be absent (`none`). -/
structure Snapshot where
  balances : Option (List (String × Int))
  transactions : Option (List (String × List TxRecord))
  profiles : Option (List (String × Profile))
  loans : Option (List (String × Loan))
  loanTransactions : Option (List (String × List TxRecord))
deriving DecidableEq

/-- Embedding of `loadData` in `bot.js`, after a successful read and parse: each missing
top-level key is backfilled with an empty container. -/
def loadData (d : Snapshot) : BankData :=
  { balances := d.balances.getD []
    transactions := d.transactions.getD []
    profiles := d.profiles.getD []
    loans := d.loans.getD []
    loanTransactions := d.loanTransactions.getD [] }

/-- Embedding of `saveData` in `bot.js`: `JSON.stringify(bankData)` serializes every
field of the in-memory state, so the written document has all five keys. -/
def saveData (st : BankData) : Snapshot :=
  { balances := some st.balances
    transactions := some st.transactions
    profiles := some st.profiles
    loans := some st.loans
    loanTransactions := some st.loanTransactions }

/-- How one run of a gated command body ends: a normal completion (every
`message.channel.send` path, successes and structured rejections alike) or
a thrown exception. -/
inductive BodyOutcome where
  | completed (st : BankData) (out : Outcome)
  | threw (st : BankData)
deriving DecidableEq

/-- The observable result of the gated dispatch in `processCommand`. -/
structure GateResult where
  busy : Bool
  st : BankData
  saved : Bool
  ran : Bool
deriving DecidableEq

/-- The mutation gate of `processCommand` in `bot.js`, identical for the
`deposit`/`withdraw` and the `loan`/`repay`/`accrue` groups: if `busy`, the
caller is turned away; otherwise `busy = true`, the command body runs,
`saveData()` runs after any non-throwing completion, and the
`finally` block resets `busy` on every exit path (on a throw, the
`catch` in the message handler also resets it). -/
def processGated (busy : Bool) (st : BankData) (body : BankData → BodyOutcome) : GateResult :=
  if busy then { busy := true, st := st, saved := false, ran := false }
  else
    match body st with
    | BodyOutcome.completed st2 _ => { busy := false, st := st2, saved := true, ran := true }
    | BodyOutcome.threw st2 => { busy := false, st := st2, saved := false, ran := true }

/-- One deposit or withdraw invocation, with its marshalled arguments. -/
inductive BankOp where
  | dep (accountName : String) (amountArg : Option Rat) (actorId note now : String)
  | wd (accountName : String) (amountArg : Option Rat) (actorId note now : String)
deriving DecidableEq

/-- Run one account-ledger operation, keeping the state of either outcome
(rejections leave it unchanged). -/
def applyBankOp (st : BankData) : BankOp → BankData
  | BankOp.dep accountName amountArg actorId note now =>
      (depositCommand st accountName amountArg actorId note now).1
  | BankOp.wd accountName amountArg actorId note now =>
      (withdrawCommand st accountName amountArg actorId note now).1

/-- Run a sequence of deposits/withdrawals from the empty initial state. -/
def runBankOps (ops : List BankOp) : BankData :=
  ops.foldl applyBankOp emptyBank

/-- Total amount of the `deposit` transactions of a log. -/
def depositsSum (l : List TxRecord) : Int :=
  ((l.filter (fun t => t.type == "deposit")).map (fun t => t.amount)).sum

/-- Total amount of the `withdraw` transactions of a log. -/
def withdrawalsSum (l : List TxRecord) : Int :=
  ((l.filter (fun t => t.type == "withdraw")).map (fun t => t.amount)).sum

/-- Concrete resolved loan used for exercising the loan commands. -/
def resolvedLoan : Loan :=
  { borrowerName := "Alice", lenderName := "Bob", balance := 0, status := "resolved",
    timestamp := "t0", note := "" }

/-- A state whose only loan `loan_1` is already resolved. -/
def resolvedLoanState : BankData :=
  { balances := [], transactions := [], profiles := [],
    loans := [("loan_1", resolvedLoan)],
    loanTransactions := [("loan_1", [⟨"t0", "loan", 100, "u", "Loan created"⟩])] }

/-- Concrete open loan used for exercising the loan commands. -/
def openLoan : Loan :=
  { borrowerName := "Alice", lenderName := "Bob", balance := 100, status := "open",
    timestamp := "t0", note := "note1" }

/-- A state with a single open 100 GP loan `loan_1` from Bob to Alice. -/
def openLoanState : BankData :=
  { balances := [], transactions := [], profiles := [],
    loans := [("loan_1", openLoan)],
    loanTransactions := [("loan_1", [⟨"t0", "loan", 100, "u", "Loan created"⟩])] }

/-- A sample bank transaction for exercising `historyCommand`. -/
def sampleTx : TxRecord :=
  { timestamp := "t", type := "deposit", amount := 1, actorId := "u", note := "" }

/-- A state whose account `Alice` has 21 logged transactions. -/
def manyTxState : BankData :=
  { balances := [], transactions := [("Alice", List.replicate 21 sampleTx)], profiles := [],
    loans := [], loanTransactions := [] }

/-- A snapshot document with all five top-level keys present. -/
def snapshotFull : Snapshot :=
  { balances := some [("Alice", 5)],
    transactions := some [("Alice", [sampleTx])],
    profiles := some [("123", ⟨"Alice"⟩)],
    loans := some [("loan_1", openLoan)],
    loanTransactions := some [("loan_1", [sampleTx])] }

/-- A snapshot document with every top-level key missing. -/
def snapshotBare : Snapshot :=
  { balances := none, transactions := none, profiles := none,
    loans := none, loanTransactions := none }

theorem alGet_alSet_self (l : List (String × α)) (k : String) (v : α) :
    alGet (alSet l k v) k = some v := by
  induction l with
  | nil => simp [alSet, alGet]
  | cons p rest ih =>
    obtain ⟨pk, pv⟩ := p
    by_cases h : pk = k
    · simp [alSet, h, alGet]
    · simp [alSet, h, alGet, ih]

theorem alGet_alSet_ne (l : List (String × α)) (k k2 : String) (v : α) (h : k2 ≠ k) :
    alGet (alSet l k v) k2 = alGet l k2 := by
  have hne : ¬ k = k2 := fun hh => h hh.symm
  induction l with
  | nil => simp [alSet, alGet, hne]
  | cons p rest ih =>
    obtain ⟨pk, pv⟩ := p
    by_cases hk : pk = k
    · subst hk
      simp [alSet, alGet, hne]
    · simp [alSet, alGet, hk, ih]

theorem alSet_alSet (l : List (String × α)) (k : String) (v v2 : α) :
    alSet (alSet l k v) k v2 = alSet l k v2 := by
  induction l with
  | nil => simp [alSet]
  | cons p rest ih =>
    obtain ⟨pk, pv⟩ := p
    by_cases h : pk = k
    · simp [alSet, h]
    · simp [alSet, h, ih]

theorem parseAmount_some (q : Rat) (a : Int) (h : parseAmount (some q) = some a) :
    0 < q ∧ a = ⌊q⌋ := by
  rw [show parseAmount (some q) = if q ≤ 0 then none else some ⌊q⌋ from rfl] at h
  by_cases hq : q ≤ 0
  · simp [hq] at h
  · rw [if_neg hq] at h
    exact ⟨lt_of_not_le hq, (Option.some.inj h).symm⟩

theorem parseAmount_nonneg (x : Option Rat) (a : Int) (h : parseAmount x = some a) :
    0 ≤ a := by
  cases x with
  | none => simp [parseAmount] at h
  | some q =>
    obtain ⟨hq, ha⟩ := parseAmount_some q a h
    rw [ha]
    exact Int.le_floor.mpr (by exact_mod_cast le_of_lt hq)

/-- C2 (amended): every amount accepted by the shared parsing rule is the
floor of the input value, hence a non-negative integer, and it is at least 1
exactly when the input value is at least 1 (inputs strictly between 0 and 1
are accepted and floored to 0, not to a positive integer); the accepted
amount is exactly what `depositCommand` adds to the balance and records in
the appended transaction. -/
theorem c2_amount_floor (q : Rat) (a : Int) (st : BankData)
    (accountName actorId note now : String)
    (h : parseAmount (some q) = some a) :
    0 ≤ a ∧ a = ⌊q⌋ ∧ (1 ≤ a ↔ 1 ≤ q)
    ∧ (depositCommand st accountName (some q) actorId note now).1.balances
        = alSet st.balances accountName (getBalance st accountName + a)
    ∧ (depositCommand st accountName (some q) actorId note now).1.transactions
        = alSet st.transactions accountName
            (((alGet st.transactions accountName).getD []) ++ [⟨now, "deposit", a, actorId, note⟩]) := by
  obtain ⟨hq, ha⟩ := parseAmount_some q a h
  refine ⟨parseAmount_nonneg (some q) a h, ha, ?_, ?_, ?_⟩
  · rw [ha]
    constructor
    · intro h1
      exact_mod_cast le_trans (by exact_mod_cast h1) (Int.floor_le q)
    · intro h1
      exact Int.le_floor.mpr (by exact_mod_cast h1)
  · simp [depositCommand, h, setBalance, recordTransaction]
  · simp [depositCommand, h, setBalance, recordTransaction]

/-- C2 counterexample: the input `0.5` is accepted by the shared rule
(finite and strictly positive), yet the amount applied and recorded by
`depositCommand` is `0`, not a positive integer. -/
theorem c2_cex :
    parseAmount (some (1/2)) = some 0
    ∧ (depositCommand emptyBank "Alice" (some (1/2)) "u" "" "t").1.transactions
        = [("Alice", [⟨"t", "deposit", 0, "u", ""⟩])]
    ∧ ¬ (1 : Int) ≤ 0 := by
  have hp : parseAmount (some (1/2)) = some 0 := by norm_num [parseAmount]
  refine ⟨hp, ?_, by decide⟩
  simp only [depositCommand, hp]
  decide

/-- Witness for `c2_amount_floor` at the input `7/2`. -/
theorem c2_witness :
    0 ≤ (3 : Int) ∧ (3 : Int) = ⌊(7/2 : Rat)⌋ ∧ ((1 : Int) ≤ 3 ↔ (1 : Rat) ≤ 7/2)
    ∧ (depositCommand emptyBank "Alice" (some (7/2)) "u" "" "t").1.balances
        = alSet emptyBank.balances "Alice" (getBalance emptyBank "Alice" + 3)
    ∧ (depositCommand emptyBank "Alice" (some (7/2)) "u" "" "t").1.transactions
        = alSet emptyBank.transactions "Alice"
            (((alGet emptyBank.transactions "Alice").getD []) ++ [⟨"t", "deposit", 3, "u", ""⟩]) :=
  c2_amount_floor (7/2) 3 emptyBank "Alice" "u" "" "t" (by norm_num [parseAmount])

/-- C3: a withdrawal whose parsed amount exceeds the current balance is
rejected with a message reporting both the requested amount and the current
balance, and the whole state (balance and transaction log) is returned
unchanged; otherwise the amount is subtracted and exactly one `withdraw`
transaction is appended (the new state is exactly
`recordTransaction (setBalance ...)`). -/
theorem c3_withdraw_guard (st : BankData) (accountName : String) (q : Rat) (a : Int)
    (actorId note now : String)
    (h : parseAmount (some q) = some a) :
    (getBalance st accountName < a →
      withdrawCommand st accountName (some q) actorId note now
        = (st, Outcome.rejection ("Cannot withdraw **" ++ toString a ++ " GP** from **"
            ++ accountName ++ "**; it only has **"
            ++ toString (getBalance st accountName) ++ " GP**.")))
    ∧ (¬ getBalance st accountName < a →
      withdrawCommand st accountName (some q) actorId note now
        = (recordTransaction (setBalance st accountName (getBalance st accountName - a))
            accountName "withdraw" a actorId note now,
           Outcome.success ("Withdrew **" ++ toString a ++ " GP** from **" ++ accountName
            ++ "**.\nNew balance: **" ++ toString (getBalance st accountName - a)
            ++ " GP** (was " ++ toString (getBalance st accountName) ++ " GP)."))) := by
  constructor
  · intro hlt
    simp [withdrawCommand, h, hlt]
  · intro hlt
    simp [withdrawCommand, h, hlt]

/-- Witness for `c3_withdraw_guard`: withdrawing 5 from the empty state
(balance 0) hits the rejection branch. -/
theorem c3_witness :
    (getBalance emptyBank "Alice" < 5 →
      withdrawCommand emptyBank "Alice" (some 5) "u" "" "t"
        = (emptyBank, Outcome.rejection ("Cannot withdraw **" ++ toString (5 : Int)
            ++ " GP** from **" ++ "Alice" ++ "**; it only has **"
            ++ toString (getBalance emptyBank "Alice") ++ " GP**.")))
    ∧ (¬ getBalance emptyBank "Alice" < 5 →
      withdrawCommand emptyBank "Alice" (some 5) "u" "" "t"
        = (recordTransaction (setBalance emptyBank "Alice" (getBalance emptyBank "Alice" - 5))
            "Alice" "withdraw" 5 "u" "" "t",
           Outcome.success ("Withdrew **" ++ toString (5 : Int) ++ " GP** from **" ++ "Alice"
            ++ "**.\nNew balance: **" ++ toString (getBalance emptyBank "Alice" - 5)
            ++ " GP** (was " ++ toString (getBalance emptyBank "Alice") ++ " GP)."))) :=
  c3_withdraw_guard emptyBank "Alice" 5 5 "u" "" "t" (by norm_num [parseAmount])

theorem depositsSum_append (l1 l2 : List TxRecord) :
    depositsSum (l1 ++ l2) = depositsSum l1 + depositsSum l2 := by
  simp [depositsSum, List.filter_append]

theorem withdrawalsSum_append (l1 l2 : List TxRecord) :
    withdrawalsSum (l1 ++ l2) = withdrawalsSum l1 + withdrawalsSum l2 := by
  simp [withdrawalsSum, List.filter_append]

theorem depositsSum_deposit_tx (a : Int) (actorId note now : String) :
    depositsSum [⟨now, "deposit", a, actorId, note⟩] = a := by
  simp [depositsSum]

theorem withdrawalsSum_deposit_tx (a : Int) (actorId note now : String) :
    withdrawalsSum [⟨now, "deposit", a, actorId, note⟩] = 0 := by
  simp [withdrawalsSum]

theorem depositsSum_withdraw_tx (a : Int) (actorId note now : String) :
    depositsSum [⟨now, "withdraw", a, actorId, note⟩] = 0 := by
  simp [depositsSum]

theorem withdrawalsSum_withdraw_tx (a : Int) (actorId note now : String) :
    withdrawalsSum [⟨now, "withdraw", a, actorId, note⟩] = a := by
  simp [withdrawalsSum]

/-- The account-ledger invariant of spec section 8: every balance is the sum
of the logged deposits minus the sum of the logged withdrawals, and is never
negative. -/
def ledgerInvariant (st : BankData) : Prop :=
  ∀ accountName,
    getBalance st accountName
      = depositsSum ((alGet st.transactions accountName).getD [])
        - withdrawalsSum ((alGet st.transactions accountName).getD [])
    ∧ 0 ≤ getBalance st accountName

theorem emptyBank_ledgerInvariant : ledgerInvariant emptyBank := by
  intro accountName
  simp [emptyBank, getBalance, alGet, depositsSum, withdrawalsSum]

theorem getBalance_record_set (st : BankData) (accountName key type : String)
    (b a : Int) (actorId note now : String) :
    getBalance (recordTransaction (setBalance st accountName b) accountName type a actorId note now) key
      = if key = accountName then b else getBalance st key := by
  by_cases hk : key = accountName
  · subst hk
    simp [recordTransaction, setBalance, getBalance, alGet_alSet_self]
  · simp [recordTransaction, setBalance, getBalance, alGet_alSet_ne _ _ _ _ hk, hk]

theorem txLog_record_set (st : BankData) (accountName key type : String)
    (b a : Int) (actorId note now : String) :
    (alGet (recordTransaction (setBalance st accountName b) accountName type a actorId note now).transactions key).getD []
      = if key = accountName
        then ((alGet st.transactions accountName).getD []) ++ [⟨now, type, a, actorId, note⟩]
        else (alGet st.transactions key).getD [] := by
  by_cases hk : key = accountName
  · subst hk
    simp [recordTransaction, setBalance, alGet_alSet_self]
  · simp [recordTransaction, setBalance, alGet_alSet_ne _ _ _ _ hk, hk]

theorem applyBankOp_ledgerInvariant (st : BankData) (op : BankOp)
    (h : ledgerInvariant st) : ledgerInvariant (applyBankOp st op) := by
  cases op with
  | dep accountName amountArg actorId note now =>
    cases hp : parseAmount amountArg with
    | none =>
      simpa [applyBankOp, depositCommand, hp] using h
    | some a =>
      have ha : 0 ≤ a := parseAmount_nonneg amountArg a hp
      intro key
      obtain ⟨hsum, hnn⟩ := h key
      obtain ⟨hsumA, hnnA⟩ := h accountName
      have hst : (depositCommand st accountName amountArg actorId note now).1
          = recordTransaction (setBalance st accountName (getBalance st accountName + a))
              accountName "deposit" a actorId note now := by
        simp [depositCommand, hp]
      rw [applyBankOp, hst]
      rw [getBalance_record_set, txLog_record_set]
      by_cases hk : key = accountName
      · subst hk
        simp only [eq_self_iff_true, if_true]
        rw [depositsSum_append, withdrawalsSum_append,
          depositsSum_deposit_tx, withdrawalsSum_deposit_tx]
        constructor
        · omega
        · omega
      · simp only [if_neg hk]
        exact ⟨hsum, hnn⟩
  | wd accountName amountArg actorId note now =>
    cases hp : parseAmount amountArg with
    | none =>
      simpa [applyBankOp, withdrawCommand, hp] using h
    | some a =>
      by_cases hlt : getBalance st accountName < a
      · have hst : (withdrawCommand st accountName amountArg actorId note now).1 = st := by
          simp [withdrawCommand, hp, hlt]
        simpa [applyBankOp, hst] using h
      · intro key
        obtain ⟨hsum, hnn⟩ := h key
        obtain ⟨hsumA, hnnA⟩ := h accountName
        have hst : (withdrawCommand st accountName amountArg actorId note now).1
            = recordTransaction (setBalance st accountName (getBalance st accountName - a))
                accountName "withdraw" a actorId note now := by
          simp [withdrawCommand, hp, hlt]
        rw [applyBankOp, hst]
        rw [getBalance_record_set, txLog_record_set]
        by_cases hk : key = accountName
        · subst hk
          simp only [eq_self_iff_true, if_true]
          rw [depositsSum_append, withdrawalsSum_append,
            depositsSum_withdraw_tx, withdrawalsSum_withdraw_tx]
          constructor
          · omega
          · omega
        · simp only [if_neg hk]
          exact ⟨hsum, hnn⟩

theorem foldl_ledgerInvariant (ops : List BankOp) (st : BankData)
    (h : ledgerInvariant st) : ledgerInvariant (ops.foldl applyBankOp st) := by
  induction ops generalizing st with
  | nil => simpa using h
  | cons op rest ih => exact ih _ (applyBankOp_ledgerInvariant st op h)

/-- C4: after any sequence of deposits and withdrawals from the empty
state, every account balance equals the sum of its logged (accepted)
deposit amounts minus the sum of its logged (successful) withdrawal
amounts, and no balance is negative.  Rejected operations log nothing
(the rejection branches return the state unchanged), so the logs contain exactly the accepted
deposits and successful withdrawals. -/
theorem c4_balance_conservation (ops : List BankOp) (accountName : String) :
    getBalance (runBankOps ops) accountName
      = depositsSum ((alGet (runBankOps ops).transactions accountName).getD [])
        - withdrawalsSum ((alGet (runBankOps ops).transactions accountName).getD [])
    ∧ 0 ≤ getBalance (runBankOps ops) accountName :=
  foldl_ledgerInvariant ops emptyBank emptyBank_ledgerInvariant accountName

theorem applyRepay_spec (st : BankData) (key : String) (loan : Loan) (amount : Int)
    (actorId now targetArg : String) :
    (∃ m, (applyRepay st key loan amount actorId now targetArg).2 = Outcome.success m)
    ∧ alGet (applyRepay st key loan amount actorId now targetArg).1.loans key
        = some ⟨loan.borrowerName, loan.lenderName, max 0 (loan.balance - amount),
            (if max 0 (loan.balance - amount) = 0 then "resolved" else loan.status),
            loan.timestamp, loan.note⟩
    ∧ alGet (applyRepay st key loan amount actorId now targetArg).1.loanTransactions key
        = some (((alGet st.loanTransactions key).getD [])
            ++ [⟨now, "repay", amount, actorId, ""⟩]
            ++ (if max 0 (loan.balance - amount) = 0
                then [⟨now, "resolve", 0, actorId, "Loan resolved"⟩] else [])) := by
  by_cases hz : max 0 (loan.balance - amount) = 0
  · refine ⟨?_, ?_, ?_⟩
    · simp only [applyRepay]
      rw [if_pos hz]
      exact ⟨_, rfl⟩
    · simp only [applyRepay, recordLoanTransaction]
      rw [if_pos hz]
      simp only [alSet_alSet]
      rw [alGet_alSet_self, hz]
      simp
    · simp only [applyRepay, recordLoanTransaction]
      rw [if_pos hz]
      simp only [alGet_alSet_self, Option.getD_some, alSet_alSet]
      rw [if_pos hz]
  · refine ⟨?_, ?_, ?_⟩
    · simp only [applyRepay]
      rw [if_neg hz]
      exact ⟨_, rfl⟩
    · simp only [applyRepay, recordLoanTransaction]
      rw [if_neg hz, alGet_alSet_self]
      simp [hz]
    · simp only [applyRepay, recordLoanTransaction]
      rw [if_neg hz]
      simp only [alGet_alSet_self, Option.getD_some]
      simp [hz]

/-- C5: a successful repay on an open loan with old balance `B` and
requested amount `A` sets the loan balance to `max 0 (B - A)`, appends a
`repay` loan transaction recording the requested amount `A` (not the
clamped delta), and exactly when the new balance is 0 it sets the status to
`resolved` and appends a `resolve` transaction with amount 0 after the
`repay` transaction. -/
theorem c5_repay_effect (st : BankData) (borrowerName : String) (q : Rat) (amount : Int)
    (targetArg actorId now : String) (id : String) (loan : Loan)
    (hparse : parseAmount (some q) = some amount)
    (hid : isLoanId st targetArg = true)
    (hnorm : normalizeLoanId targetArg = some id)
    (hloan : alGet st.loans id = some loan)
    (hopen : ¬ loan.status = "resolved")
    (hborrower : eqName (JArg.str loan.borrowerName) (JArg.str borrowerName) = true) :
    (∃ m, (repayCommand st borrowerName (some q) targetArg actorId now).2 = Outcome.success m)
    ∧ alGet (repayCommand st borrowerName (some q) targetArg actorId now).1.loans id
        = some ⟨loan.borrowerName, loan.lenderName, max 0 (loan.balance - amount),
            (if max 0 (loan.balance - amount) = 0 then "resolved" else loan.status),
            loan.timestamp, loan.note⟩
    ∧ alGet (repayCommand st borrowerName (some q) targetArg actorId now).1.loanTransactions id
        = some (((alGet st.loanTransactions id).getD [])
            ++ [⟨now, "repay", amount, actorId, ""⟩]
            ++ (if max 0 (loan.balance - amount) = 0
                then [⟨now, "resolve", 0, actorId, "Loan resolved"⟩] else []))
    ∧ ((if max 0 (loan.balance - amount) = 0 then "resolved" else loan.status) = "resolved"
        ↔ max 0 (loan.balance - amount) = 0) := by
  have hcmd : repayCommand st borrowerName (some q) targetArg actorId now
      = applyRepay st id loan amount actorId now targetArg := by
    simp only [repayCommand, hparse, resolveLoanTarget, hid, if_true, hnorm]
    have hget : getLoan st (some id) = some loan := by
      simpa [getLoan, jsShow] using hloan
    simp [hget, hopen, hborrower, jsShow]
  have hspec := applyRepay_spec st id loan amount actorId now targetArg
  rw [hcmd]
  refine ⟨hspec.1, hspec.2.1, hspec.2.2, ?_⟩
  by_cases hz : max 0 (loan.balance - amount) = 0
  · simp [hz]
  · simp [hz, hopen]

/-- Witness for `c5_repay_effect`: repaying 150 against an open 100 GP loan
addressed by its exact id clamps the balance to 0, logs `repay 150`, and
resolves the loan with a trailing `resolve 0` transaction. -/
theorem c5_witness :
    (∃ m, (repayCommand openLoanState "Alice" (some 150) "loan_1" "u" "t1").2 = Outcome.success m)
    ∧ alGet (repayCommand openLoanState "Alice" (some 150) "loan_1" "u" "t1").1.loans "loan_1"
        = some ⟨openLoan.borrowerName, openLoan.lenderName, max 0 (openLoan.balance - 150),
            (if max 0 (openLoan.balance - 150) = 0 then "resolved" else openLoan.status),
            openLoan.timestamp, openLoan.note⟩
    ∧ alGet (repayCommand openLoanState "Alice" (some 150) "loan_1" "u" "t1").1.loanTransactions "loan_1"
        = some (((alGet openLoanState.loanTransactions "loan_1").getD [])
            ++ [⟨"t1", "repay", 150, "u", ""⟩]
            ++ (if max 0 (openLoan.balance - 150) = 0
                then [⟨"t1", "resolve", 0, "u", "Loan resolved"⟩] else []))
    ∧ ((if max 0 (openLoan.balance - 150) = 0 then "resolved" else openLoan.status) = "resolved"
        ↔ max 0 (openLoan.balance - 150) = 0) :=
  c5_repay_effect openLoanState "Alice" 150 150 "loan_1" "u" "t1" "loan_1" openLoan
    (by norm_num [parseAmount]) (by decide) (by decide) (by decide) (by decide) (by decide)

theorem applyRepay_loans (st : BankData) (key : String) (loan : Loan) (amount : Int)
    (act now targ : String) :
    ∃ v, (applyRepay st key loan amount act now targ).1.loans = alSet st.loans key v := by
  by_cases hz : max 0 (loan.balance - amount) = 0
  · refine ⟨{ loan with balance := max 0 (loan.balance - amount), status := "resolved" }, ?_⟩
    simp only [applyRepay, recordLoanTransaction]
    rw [if_pos hz]
    simp [alSet_alSet]
  · refine ⟨{ loan with balance := max 0 (loan.balance - amount) }, ?_⟩
    simp only [applyRepay, recordLoanTransaction]
    rw [if_neg hz]

theorem applyAccrue_loans (st : BankData) (key : String) (loan : Loan) (amount : Int)
    (act now targ : String) :
    ∃ v, (applyAccrue st key loan amount act now targ).1.loans = alSet st.loans key v :=
  ⟨{ loan with balance := loan.balance + amount }, rfl⟩

theorem repay_loans_shape (st : BankData) (b : String) (arg : Option Rat) (t act now : String) :
    (repayCommand st b arg t act now).1.loans = st.loans
    ∨ ∃ key loan2 v, alGet st.loans key = some loan2 ∧ ¬ loan2.status = "resolved"
        ∧ (repayCommand st b arg t act now).1.loans = alSet st.loans key v := by
  cases hp : parseAmount arg with
  | none => simp [repayCommand, hp]
  | some a =>
    cases hr : resolveLoanTarget st b t "repay" with
    | error out => simp [repayCommand, hp, hr]
    | ok loanId =>
      cases hg : getLoan st loanId with
      | none => simp [repayCommand, hp, hr, hg]
      | some loan2 =>
        by_cases hres : loan2.status = "resolved"
        · simp [repayCommand, hp, hr, hg, hres]
        · by_cases hbm : eqName (JArg.str loan2.borrowerName) (JArg.str b) = true
          · right
            obtain ⟨v, hv⟩ := applyRepay_loans st (jsShow loanId) loan2 a act now t
            refine ⟨jsShow loanId, loan2, v, hg, hres, ?_⟩
            simpa [repayCommand, hp, hr, hg, hres, hbm] using hv
          · left
            simp [repayCommand, hp, hr, hg, hres, hbm]

theorem accrue_loans_shape (st : BankData) (b : String) (arg : Option Rat) (t act now : String) :
    (accrueCommand st b arg t act now).1.loans = st.loans
    ∨ ∃ key loan2 v, alGet st.loans key = some loan2 ∧ ¬ loan2.status = "resolved"
        ∧ (accrueCommand st b arg t act now).1.loans = alSet st.loans key v := by
  cases hp : parseAmount arg with
  | none => simp [accrueCommand, hp]
  | some a =>
    cases hr : resolveLoanTarget st b t "accrue" with
    | error out => simp [accrueCommand, hp, hr]
    | ok loanId =>
      cases hg : getLoan st loanId with
      | none => simp [accrueCommand, hp, hr, hg]
      | some loan2 =>
        by_cases hres : loan2.status = "resolved"
        · simp [accrueCommand, hp, hr, hg, hres]
        · by_cases hbm : eqName (JArg.str loan2.borrowerName) (JArg.str b) = true
          · right
            obtain ⟨v, hv⟩ := applyAccrue_loans st (jsShow loanId) loan2 a act now t
            refine ⟨jsShow loanId, loan2, v, hg, hres, ?_⟩
            simpa [accrueCommand, hp, hr, hg, hres, hbm] using hv
          · left
            simp [accrueCommand, hp, hr, hg, hres, hbm]

theorem repay_keeps_resolved (st : BankData) (b : String) (arg : Option Rat)
    (t act now id : String) (loan : Loan)
    (hl : alGet st.loans id = some loan) (hres : loan.status = "resolved") :
    alGet (repayCommand st b arg t act now).1.loans id = some loan := by
  rcases repay_loans_shape st b arg t act now with heq | ⟨key, loan2, v, hk, hopen2, heq⟩
  · rw [heq, hl]
  · rw [heq]
    have hne : id ≠ key := by
      rintro rfl
      rw [hl] at hk
      exact hopen2 ((Option.some.inj hk) ▸ hres)
    rw [alGet_alSet_ne _ _ _ _ hne, hl]

theorem accrue_keeps_resolved (st : BankData) (b : String) (arg : Option Rat)
    (t act now id : String) (loan : Loan)
    (hl : alGet st.loans id = some loan) (hres : loan.status = "resolved") :
    alGet (accrueCommand st b arg t act now).1.loans id = some loan := by
  rcases accrue_loans_shape st b arg t act now with heq | ⟨key, loan2, v, hk, hopen2, heq⟩
  · rw [heq, hl]
  · rw [heq]
    have hne : id ≠ key := by
      rintro rfl
      rw [hl] at hk
      exact hopen2 ((Option.some.inj hk) ▸ hres)
    rw [alGet_alSet_ne _ _ _ _ hne, hl]

theorem loanCommand_keeps_other (st : BankData) (bn ln : String) (arg : Option Rat)
    (note act now genId id : String) (loan : Loan)
    (hl : alGet st.loans id = some loan) (hne : genId ≠ id) :
    alGet (loanCommand st bn ln arg note act now genId).1.loans id = some loan := by
  cases hp : parseAmount arg with
  | none => simpa [loanCommand, hp] using hl
  | some a =>
    by_cases hemp : (jsTrim ln).data.isEmpty = true
    · simpa [loanCommand, hp, hemp] using hl
    · simp only [loanCommand, hp, hemp, recordLoanTransaction, Bool.false_eq_true,
        if_false, Option.getD]
      rw [alGet_alSet_ne _ _ _ _ (Ne.symm hne), hl]

/-- C6 (amended): on a loan whose status is `resolved`, repay is rejected
with the already-resolved message and accrue with its own resolved message,
both returning the state unchanged; no repay or accrue invocation with any
arguments ever changes the resolved loan's record; and `loanCommand`
preserves it as well provided the generated loan id does not collide with
the resolved loan's id (the source never checks the generated id for
collisions, and a colliding id overwrites the resolved loan with a fresh
open one - see the counterexample). -/
theorem c6_resolved_rejection (st : BankData) (borrowerName : String) (q : Rat) (amount : Int)
    (targetArg actorId now : String) (id : String) (loan : Loan)
    (b2 : String) (a2 : Option Rat) (t2 act2 now2 : String)
    (bn ln : String) (a3 : Option Rat) (note3 act3 now3 genId : String)
    (hparse : parseAmount (some q) = some amount)
    (hid : isLoanId st targetArg = true)
    (hnorm : normalizeLoanId targetArg = some id)
    (hloan : alGet st.loans id = some loan)
    (hres : loan.status = "resolved")
    (hgen : genId ≠ id) :
    repayCommand st borrowerName (some q) targetArg actorId now
      = (st, Outcome.rejection ("Loan **" ++ id ++ "** is already resolved."))
    ∧ accrueCommand st borrowerName (some q) targetArg actorId now
      = (st, Outcome.rejection ("Loan **" ++ id ++ "** is resolved; cannot accrue more."))
    ∧ alGet (repayCommand st b2 a2 t2 act2 now2).1.loans id = some loan
    ∧ alGet (accrueCommand st b2 a2 t2 act2 now2).1.loans id = some loan
    ∧ alGet (loanCommand st bn ln a3 note3 act3 now3 genId).1.loans id = some loan := by
  have hget : getLoan st (some id) = some loan := by
    simpa [getLoan, jsShow] using hloan
  refine ⟨?_, ?_, repay_keeps_resolved st b2 a2 t2 act2 now2 id loan hloan hres,
    accrue_keeps_resolved st b2 a2 t2 act2 now2 id loan hloan hres,
    loanCommand_keeps_other st bn ln a3 note3 act3 now3 genId id loan hloan hgen⟩
  · simp only [repayCommand, hparse, resolveLoanTarget, hid, if_true, hnorm]
    simp [hget, hres, jsShow]
  · simp only [accrueCommand, hparse, resolveLoanTarget, hid, if_true, hnorm]
    simp [hget, hres, jsShow]

/-- C6 counterexample: `loanCommand` whose generated id collides with the
id of an existing resolved loan overwrites it, turning the status at that
id from `resolved` back to `open` - so "no operation ever changes a loan's
status from resolved back to open" fails as stated. -/
theorem c6_cex :
    (alGet resolvedLoanState.loans "loan_1").map Loan.status = some "resolved"
    ∧ (alGet (loanCommand resolvedLoanState "Alice" "Bob" (some 100) "" "u" "t1" "loan_1").1.loans
        "loan_1").map Loan.status = some "open" := by
  have hp : parseAmount (some 100) = some 100 := by norm_num [parseAmount]
  refine ⟨by decide, ?_⟩
  simp only [loanCommand, hp]
  decide

/-- Witness for `c6_resolved_rejection` on the concrete resolved state. -/
theorem c6_witness :
    repayCommand resolvedLoanState "Alice" (some 50) "loan_1" "u" "t1"
      = (resolvedLoanState, Outcome.rejection ("Loan **" ++ "loan_1" ++ "** is already resolved."))
    ∧ accrueCommand resolvedLoanState "Alice" (some 50) "loan_1" "u" "t1"
      = (resolvedLoanState, Outcome.rejection ("Loan **" ++ "loan_1" ++ "** is resolved; cannot accrue more."))
    ∧ alGet (repayCommand resolvedLoanState "Bob" (some 7) "loan_1" "u2" "t2").1.loans "loan_1" = some resolvedLoan
    ∧ alGet (accrueCommand resolvedLoanState "Bob" (some 7) "loan_1" "u2" "t2").1.loans "loan_1" = some resolvedLoan
    ∧ alGet (loanCommand resolvedLoanState "Carol" "Dan" (some 9) "" "u3" "t3" "loan_2").1.loans "loan_1"
        = some resolvedLoan :=
  c6_resolved_rejection resolvedLoanState "Alice" 50 50 "loan_1" "u" "t1" "loan_1" resolvedLoan
    "Bob" (some 7) "loan_1" "u2" "t2" "Carol" "Dan" (some 9) "" "u3" "t3" "loan_2"
    (by norm_num [parseAmount]) (by decide) (by decide) (by decide) (by decide) (by decide)

/-- C1: in `openLoanState` exactly one non-resolved loan matches borrower
`Alice` and lender `Bob` under case-insensitive trim-normalized equality,
yet `repayCommand` (and identically `accrueCommand`) with the lender-name
target `Bob` replies "no unresolved loan found" instead of proceeding on
that loan: the call sites pass a single object literal to `findOpenLoans`,
so the borrower name is compared against `"[object Object]"` and the lender
name against `undefined` coerced to `""`, and no loan ever matches. -/
theorem c1_lender_target_bug :
    ((openLoanState.loans.filter (fun p => p.2.status != "resolved"
        && normName p.2.borrowerName == normName "Alice"
        && normName p.2.lenderName == normName "Bob")).length = 1)
    ∧ repayCommand openLoanState "Alice" (some 50) "Bob" "u" "t1"
        = (openLoanState, Outcome.rejection
            "No unresolved loan found for borrower **Alice** with lender **Bob**.")
    ∧ accrueCommand openLoanState "Alice" (some 50) "Bob" "u" "t1"
        = (openLoanState, Outcome.rejection
            "No unresolved loan found for borrower **Alice** with lender **Bob**.")
    ∧ findOpenLoans openLoanState.loans (JArg.pairObj "Alice" "Bob") JArg.undef = [] := by
  have hp : parseAmount (some 50) = some 50 := by norm_num [parseAmount]
  refine ⟨by decide, ?_, ?_, by decide⟩
  · simp only [repayCommand, hp]
    decide
  · simp only [accrueCommand, hp]
    decide

/-- C7: `getTopDebtEntries` returns entries that carry only the debt total,
not the borrower's name: the grouping map's values are `{ debt }` object
literals and `Object.values` drops the borrower-name keys, so
`leaderboardCommand`'s row template reads `row.name` as `undefined` and
renders the literal text `undefined`. -/
theorem c7_top_debtors_lack_name :
    getTopDebtEntries openLoanState 10 = [{ name := none, debt := 100 }]
    ∧ formatDebtRow 0 { name := none, debt := 100 } = "**1.** undefined - **100 GP**" :=
  ⟨by decide, by decide⟩

/-- C8 (amended): the gated dispatch releases the busy flag on every exit
path of an invocation that acquired it, including a thrown command body,
and turns away callers while the gate is held; but `saveData()` runs after
every non-throwing completion, including structured rejections - the
snapshot save is skipped only when the body throws, not when it merely
rejects. -/
theorem c8_gate_release (st : BankData) (body : BankData → BodyOutcome) :
    (processGated false st body).busy = false
    ∧ processGated true st body = { busy := true, st := st, saved := false, ran := false }
    ∧ ((processGated false st body).saved = true
        ↔ ∃ st2 out, body st = BodyOutcome.completed st2 out) := by
  refine ⟨?_, rfl, ?_, ?_⟩
  · cases hb : body st <;> simp [processGated, hb]
  · intro hs
    cases hb : body st with
    | completed st2 out => exact ⟨st2, out, rfl⟩

    | threw st2 => simp [processGated, hb] at hs
  · rintro ⟨st2, out, hb⟩
    simp [processGated, hb]

/-- C8 counterexample: a deposit with an invalid amount completes as a
structured rejection, yet the gated dispatch still triggers a snapshot
save, contradicting "a snapshot save is triggered only when the operation
succeeds". -/
theorem c8_cex :
    (depositCommand emptyBank "Alice" none "u" "" "t").2
      = Outcome.rejection "Amount must be a positive number."
    ∧ (processGated false emptyBank (fun s =>
        BodyOutcome.completed (depositCommand s "Alice" none "u" "" "t").1
          (depositCommand s "Alice" none "u" "" "t").2)).saved = true :=
  ⟨rfl, rfl⟩

/-- C9: a snapshot document with all five top-level keys present
round-trips through `loadData` then `saveData` unchanged, and `loadData`
replaces each missing top-level key by an empty container. -/
theorem c9_snapshot_roundtrip (d dm : Snapshot)
    (h1 : d.balances.isSome = true) (h2 : d.transactions.isSome = true)
    (h3 : d.profiles.isSome = true) (h4 : d.loans.isSome = true)
    (h5 : d.loanTransactions.isSome = true) :
    saveData (loadData d) = d
    ∧ (dm.balances = none → (loadData dm).balances = [])
    ∧ (dm.transactions = none → (loadData dm).transactions = [])
    ∧ (dm.profiles = none → (loadData dm).profiles = [])
    ∧ (dm.loans = none → (loadData dm).loans = [])
    ∧ (dm.loanTransactions = none → (loadData dm).loanTransactions = []) := by
  refine ⟨?_, ?_, ?_, ?_, ?_, ?_⟩
  · obtain ⟨b, hb⟩ := Option.isSome_iff_exists.mp h1
    obtain ⟨t, ht⟩ := Option.isSome_iff_exists.mp h2
    obtain ⟨p, hpr⟩ := Option.isSome_iff_exists.mp h3
    obtain ⟨lo, hlo⟩ := Option.isSome_iff_exists.mp h4
    obtain ⟨lt, hlt⟩ := Option.isSome_iff_exists.mp h5
    cases d
    simp_all [saveData, loadData]
  all_goals intro hmiss
  all_goals simp [loadData, hmiss]

/-- Witness for `c9_snapshot_roundtrip` on a fully-populated document and a
document with every key missing. -/
theorem c9_witness :
    saveData (loadData snapshotFull) = snapshotFull
    ∧ (snapshotBare.balances = none → (loadData snapshotBare).balances = [])
    ∧ (snapshotBare.transactions = none → (loadData snapshotBare).transactions = [])
    ∧ (snapshotBare.profiles = none → (loadData snapshotBare).profiles = [])
    ∧ (snapshotBare.loans = none → (loadData snapshotBare).loans = [])
    ∧ (snapshotBare.loanTransactions = none → (loadData snapshotBare).loanTransactions = []) :=
  c9_snapshot_roundtrip snapshotFull snapshotBare rfl rfl rfl rfl rfl

theorem historyCount_le (arg : Option Rat) : historyCount arg ≤ 20 := by
  cases arg with
  | none => simp [historyCount]
  | some q =>
    by_cases hq : 0 < q ∧ q ≤ 20
    · simp only [historyCount, if_pos hq]
      have h1 : ⌊q⌋ ≤ ⌊(20 : Rat)⌋ := Int.floor_le_floor hq.2
      have h2 : ⌊(20 : Rat)⌋ = 20 := by norm_num
      omega
    · simp [historyCount, hq]

theorem jsSliceLast_length_le (l : List α) (c : Nat) (hc : c ≠ 0) :
    (jsSliceLast l c).length ≤ c := by
  simp only [jsSliceLast, if_neg hc, List.length_drop]
  omega

/-- C10 (amended): the history count argument is accepted only when it is a
finite number strictly greater than 0 and at most 20, then floored; any
other or absent count silently falls back to the default 5.  When the
effective count is nonzero (in particular for the default and for any
argument at least 1) at most 20 transactions are returned; but an argument
strictly between 0 and 1 floors to an effective count of 0, and
`list.slice(-0)` returns the entire transaction log, so the 20-entry cap
does not hold for such arguments (see the counterexample). -/
theorem c10_history_cap (st : BankData) (accountName : String) (countArg : Option Rat)
    (l : List TxRecord)
    (h : historyCommand st accountName countArg = some l) :
    historyCount countArg ≤ 20
    ∧ (historyCount countArg ≠ 0 → l.length ≤ 20)
    ∧ (historyCount countArg = 0 → l = (alGet st.transactions accountName).getD []) := by
  have hl : l = jsSliceLast ((alGet st.transactions accountName).getD []) (historyCount countArg) := by
    by_cases he : ((alGet st.transactions accountName).getD []).isEmpty
    · simp [historyCommand, he] at h
    · simp only [historyCommand, he, Bool.false_eq_true, if_false] at h
      exact (Option.some.inj h).symm
  refine ⟨historyCount_le countArg, ?_, ?_⟩
  · intro hne
    rw [hl]
    exact le_trans (jsSliceLast_length_le _ _ hne) (historyCount_le countArg)
  · intro hzero
    rw [hl, hzero]
    simp [jsSliceLast]

/-- C10 counterexample: with 21 logged transactions and the count argument
`0.5` (accepted by the validation since `0 < 0.5 ≤ 20`, then floored to 0),
`historyCommand` returns all 21 transactions - more than the claimed cap
of 20. -/
theorem c10_cex :
    historyCommand manyTxState "Alice" (some (1/2)) = some (List.replicate 21 sampleTx)
    ∧ ¬ (List.replicate 21 sampleTx).length ≤ 20 := by
  have hc : historyCount (some (1/2)) = 0 := by norm_num [historyCount]
  refine ⟨?_, by decide⟩
  simp only [historyCommand, hc]
  decide

/-- Witness for `c10_history_cap` at the count argument 7 on a 21-entry
log. -/
theorem c10_witness :
    historyCount (some 7) ≤ 20
    ∧ (historyCount (some 7) ≠ 0 → (List.replicate 7 sampleTx).length ≤ 20)
    ∧ (historyCount (some 7) = 0
        → List.replicate 7 sampleTx = (alGet manyTxState.transactions "Alice").getD []) :=
  c10_history_cap manyTxState "Alice" (some 7) (List.replicate 7 sampleTx) (by
    have hc : historyCount (some 7) = 7 := by
      norm_num [historyCount]
      decide
    simp only [historyCommand, hc]
    decide)

end GolpyreBank
